import Mathlib

/-!
Verification of the Bushido card-duel rules engine.

Shallow embedding of the core game logic:
  * `src/games/bushido/models.py`  — data model (Position, ActionCard, PlayerState, ...)
  * `src/resource_manager.py`      — PlayerResourceManager (bounded resource mutation)
  * `src/games/bushido/rules.py`   — GameRulesEngine (positioning, combat, honor, turn, victory)
  * `src/constants.py`             — game configuration constants

Python integers are embedded as `Int`.  The Python resource manager mutates
`PlayerState` objects in place; it is embedded in state-passing style, each
operation returning the updated `PlayerState`.  The rules engine functions are
read-only in the source and are embedded as pure functions.
-/

namespace Bushido

/-- Game position states (`Position` enum in models.py); `value` strings below. -/
inductive Position where
  | APART
  | SWORD
  | CLOSE
deriving DecidableEq, Repr, Fintype

/-- The `.value` string of each `Position` enum member in the source. -/
def Position.value : Position → String
  | Position.APART => "Apart"
  | Position.SWORD => "Sword Range"
  | Position.CLOSE => "Close Combat"

/-- Available action cards (`ActionCard` enum in models.py). -/
inductive ActionCard where
  | ATTACK
  | DEFEND
  | ADVANCE
  | RETREAT
  | INSIGHT
deriving DecidableEq, Repr, Fintype

/-- Player roles (`PlayerRole` enum in models.py). -/
inductive PlayerRole where
  | CHALLENGER
  | DEFENDER
deriving DecidableEq, Repr, Fintype

/-- Player personality types (`PersonalityTrait` enum in models.py). -/
inductive PersonalityTrait where
  | AGGRESSIVE
  | DEFENSIVE
  | ADAPTIVE
  | CALCULATED
  | UNPREDICTABLE
  | HONORABLE
deriving DecidableEq, Repr, Fintype

/-- Persona data (`PlayerPersona` dataclass in models.py).  The float-valued
fields (risk tolerance, confidence, tension threshold) are omitted: none of
the rules-engine or resource-manager code under verification reads or writes
them, so they play no part in any claim below. -/
structure PlayerPersona where
  name : String
  personality : PersonalityTrait
  emotional_state : String
deriving DecidableEq, Repr

/-- Complete state of a player (`PlayerState` dataclass in models.py). -/
structure PlayerState where
  role : PlayerRole
  persona : PlayerPersona
  health : Int
  momentum : Int
  balance : Int
  speed : Int
  strength : Int
  defense : Int
  action_cards : List ActionCard
  technique_cards : List String
  current_technique : Option String
deriving DecidableEq, Repr

/-- A decision record as consumed by the engine: the `actions` and `technique`
entries of the decision dict read by `resolve_turn`. -/
structure Decision where
  actions : List ActionCard
  technique : Option String
deriving DecidableEq, Repr

/-- The `damage` dict `{"challenger": _, "defender": _}` of `resolve_combat`. -/
structure Damage where
  challenger : Int
  defender : Int
deriving DecidableEq, Repr

/-- The turn-result dict built by `resolve_turn` (position entries are stored
as the enum `.value` strings, exactly as in the source; the
`honor_violation` key is optional). -/
structure TurnResult where
  turn : Int
  challenger_actions : List ActionCard
  defender_actions : List ActionCard
  challenger_technique : Option String
  defender_technique : Option String
  position_before : String
  position_after : String
  damage_dealt : Damage
  honor_violation : Option String
deriving DecidableEq, Repr

/-! Constants from `src/constants.py`. -/

def DEFAULT_HEALTH : Int := 3

def MAX_MOMENTUM : Int := 3

def MAX_BALANCE : Int := 3

def HONOR_RESTRICTION_TURN : Int := 3

/-! ## PlayerResourceManager (`src/resource_manager.py`), state-passing. -/

/-- `adjust_momentum`: `player.momentum = max(0, min(cap, player.momentum + amount))`.
The source default for `cap` is `MAX_MOMENTUM`; every call site uses it. -/
def adjust_momentum (player : PlayerState) (amount : Int) (cap : Int) : PlayerState :=
  { player with momentum := max 0 (min cap (player.momentum + amount)) }

/-- `adjust_balance`: `player.balance = max(0, min(cap, player.balance + amount))`.
The source default for `cap` is `MAX_BALANCE`; every call site uses it. -/
def adjust_balance (player : PlayerState) (amount : Int) (cap : Int) : PlayerState :=
  { player with balance := max 0 (min cap (player.balance + amount)) }

/-- `take_damage`: `player.health = max(0, player.health - amount)`. -/
def take_damage (player : PlayerState) (amount : Int) : PlayerState :=
  { player with health := max 0 (player.health - amount) }

/-- The `for action in actions` loop of `apply_action_effects`, threading the
player state and the `has_movement` flag through the iterations. -/
def applyMoves (player : PlayerState) (has_movement : Bool) : List ActionCard → PlayerState × Bool
  | [] => (player, has_movement)
  | action :: rest =>
    if action = ActionCard.ADVANCE then
      applyMoves (adjust_balance (adjust_momentum player 1 MAX_MOMENTUM) (-1) MAX_BALANCE) true rest
    else if action = ActionCard.RETREAT then
      applyMoves (adjust_momentum player (-1) MAX_MOMENTUM) true rest
    else
      applyMoves player has_movement rest

/-- `apply_action_effects`: run the action loop; afterwards,
`if not has_movement and actions: adjust_balance(player, +1)`. -/
def apply_action_effects (player : PlayerState) (actions : List ActionCard) : PlayerState :=
  let st := applyMoves player false actions
  if st.snd = false ∧ actions ≠ [] then adjust_balance st.fst 1 MAX_BALANCE else st.fst

/-- `update_both_players`: apply damage to both players, then action effects
to both, challenger first.  Returns the pair (challenger, defender) of
updated states. -/
def update_both_players (challenger defender : PlayerState)
    (challenger_actions defender_actions : List ActionCard)
    (damage_dealt : Damage) : PlayerState × PlayerState :=
  let c1 := take_damage challenger damage_dealt.challenger
  let d1 := take_damage defender damage_dealt.defender
  let c2 := apply_action_effects c1 challenger_actions
  let d2 := apply_action_effects d1 defender_actions
  (c2, d2)

/-! ## GameRulesEngine (`src/games/bushido/rules.py`). -/

/-- The movement-extraction loop at the top of `resolve_position`: the first
action in the list that is `ADVANCE` or `RETREAT` (or `none`). -/
def firstMovement : List ActionCard → Option ActionCard
  | [] => none
  | action :: rest =>
    if action = ActionCard.ADVANCE ∨ action = ActionCard.RETREAT then some action
    else firstMovement rest

/-- The `if`/`elif` position-transition chain of `resolve_position`, applied
to the two extracted movement actions.  Falls through to `current_pos` when
no branch returns. -/
def resolvePositionFromMoves (current_pos : Position)
    (challenger_move defender_move : Option ActionCard) : Position :=
  match current_pos with
  | Position.APART =>
    if challenger_move = some ActionCard.ADVANCE ∨ defender_move = some ActionCard.ADVANCE then
      if challenger_move ≠ some ActionCard.RETREAT ∧ defender_move ≠ some ActionCard.RETREAT then
        Position.SWORD
      else Position.APART
    else Position.APART
  | Position.SWORD =>
    if challenger_move = some ActionCard.ADVANCE ∧ defender_move = some ActionCard.ADVANCE then
      Position.CLOSE
    else if challenger_move = some ActionCard.ADVANCE ∧ defender_move ≠ some ActionCard.RETREAT then
      Position.CLOSE
    else if defender_move = some ActionCard.ADVANCE ∧ challenger_move ≠ some ActionCard.RETREAT then
      Position.CLOSE
    else if challenger_move = some ActionCard.RETREAT ∧ defender_move = some ActionCard.RETREAT then
      Position.APART
    else if challenger_move = some ActionCard.RETREAT ∨ defender_move = some ActionCard.RETREAT then
      Position.APART
    else Position.SWORD
  | Position.CLOSE =>
    if challenger_move = some ActionCard.RETREAT ∧ defender_move = some ActionCard.RETREAT then
      Position.APART
    else if challenger_move = some ActionCard.RETREAT ∧ defender_move ≠ some ActionCard.ADVANCE then
      Position.SWORD
    else if defender_move = some ActionCard.RETREAT ∧ challenger_move ≠ some ActionCard.ADVANCE then
      Position.SWORD
    else Position.CLOSE

/-- `GameRulesEngine.resolve_position`: extract each side's first movement
action, then run the transition chain. -/
def resolve_position (current_pos : Position)
    (challenger_actions defender_actions : List ActionCard) : Position :=
  resolvePositionFromMoves current_pos
    (firstMovement challenger_actions) (firstMovement defender_actions)

/-- `GameRulesEngine.calculate_attack_value`:
`strength + (1 if ADVANCE in actions) + (1 if position == CLOSE)`. -/
def calculate_attack_value (player : PlayerState) (actions : List ActionCard)
    (position : Position) : Int :=
  player.strength + (if ActionCard.ADVANCE ∈ actions then 1 else 0) +
    (if position = Position.CLOSE then 1 else 0)

/-- `GameRulesEngine.calculate_defense_value`:
`0` without DEFEND, else `defense + (1 if RETREAT in actions)`. -/
def calculate_defense_value (player : PlayerState) (actions : List ActionCard) : Int :=
  if ActionCard.DEFEND ∉ actions then 0
  else player.defense + (if ActionCard.RETREAT ∈ actions then 1 else 0)

/-- `GameRulesEngine.resolve_combat`: early return `{0,0}` if nobody attacks;
otherwise each attacking side deals `max(0, attack - defense)` to the other. -/
def resolve_combat (challenger defender : PlayerState)
    (challenger_actions defender_actions : List ActionCard)
    (position : Position) : Damage :=
  let challenger_attacking := ActionCard.ATTACK ∈ challenger_actions
  let defender_attacking := ActionCard.ATTACK ∈ defender_actions
  if ¬ (challenger_attacking ∨ defender_attacking) then ⟨0, 0⟩
  else
    let defender_damage : Int :=
      if challenger_attacking then
        max 0 (calculate_attack_value challenger challenger_actions position -
               calculate_defense_value defender defender_actions)
      else 0
    let challenger_damage : Int :=
      if defender_attacking then
        max 0 (calculate_attack_value defender defender_actions position -
               calculate_defense_value challenger challenger_actions)
      else 0
    ⟨challenger_damage, defender_damage⟩

/-- `GameRulesEngine.check_honor_violation`: after `HONOR_RESTRICTION_TURN`,
retreating is forbidden. -/
def check_honor_violation (turn_number : Int) (actions : List ActionCard) : Bool :=
  if turn_number > HONOR_RESTRICTION_TURN then decide (ActionCard.RETREAT ∈ actions)
  else false

/-- `GameRulesEngine.resolve_turn`: build the result record, resolve the
position change, resolve combat only when the new position is not APART, and
set the honor-violation marker for challenger then defender (the second
assignment overwrites the first, as the dict assignment does in the source). -/
def resolve_turn (turn_number : Int) (position : Position)
    (challenger defender : PlayerState)
    (challenger_decision defender_decision : Decision) : TurnResult × Position :=
  let challenger_actions := challenger_decision.actions
  let defender_actions := defender_decision.actions
  let new_position := resolve_position position challenger_actions defender_actions
  let damage :=
    if new_position ≠ Position.APART then
      resolve_combat challenger defender challenger_actions defender_actions new_position
    else ⟨0, 0⟩
  let hv1 : Option String :=
    if check_honor_violation turn_number challenger_actions then some "Challenger" else none
  let hv2 : Option String :=
    if check_honor_violation turn_number defender_actions then some "Defender" else hv1
  ({ turn := turn_number
     challenger_actions := challenger_actions
     defender_actions := defender_actions
     challenger_technique := challenger_decision.technique
     defender_technique := defender_decision.technique
     position_before := position.value
     position_after := new_position.value
     damage_dealt := damage
     honor_violation := hv2 }, new_position)

/-- `GameRulesEngine.check_victory`: health checks first (draw, then
challenger down, then defender down), then the honor-violation forfeit from
the most recent turn result. -/
def check_victory (challenger defender : PlayerState)
    (last_turn : Option TurnResult) : Option String :=
  if challenger.health ≤ 0 ∧ defender.health ≤ 0 then some "DRAW"
  else if challenger.health ≤ 0 then some "DEFENDER"
  else if defender.health ≤ 0 then some "CHALLENGER"
  else
    match last_turn with
    | some t =>
      match t.honor_violation with
      | some side =>
        if side = "Challenger" then some "DEFENDER"
        else if side = "Defender" then some "CHALLENGER"
        else none
      | none => none
    | none => none

/-! ## Concrete sample states (defaults from models.py / constants.py). -/

/-- A sample persona; the engine never reads persona data. -/
def samplePersona : PlayerPersona :=
  { name := "Sample", personality := PersonalityTrait.CALCULATED, emotional_state := "calm" }

/-- A challenger with the default stats of `PlayerState` in models.py:
health 3, momentum 0, balance 0, speed/strength/defense 2. -/
def sampleChallenger : PlayerState :=
  { role := PlayerRole.CHALLENGER
    persona := samplePersona
    health := 3
    momentum := 0
    balance := 0
    speed := 2
    strength := 2
    defense := 2
    action_cards := [ActionCard.ATTACK, ActionCard.DEFEND, ActionCard.ADVANCE,
                     ActionCard.RETREAT, ActionCard.INSIGHT]
    technique_cards := []
    current_technique := none }

/-- A defender with the same default stats. -/
def sampleDefender : PlayerState :=
  { sampleChallenger with role := PlayerRole.DEFENDER }

/-! ## C1 — the SwordRange row of `resolve_position`. -/

/-- C1 counterexample: at SwordRange with the challenger advancing and the
defender retreating, the code moves to Apart (the final
`challenger_move == RETREAT or defender_move == RETREAT` branch fires),
whereas the claim says the position stays at SwordRange in this case. -/
theorem c1_counterexample :
    resolve_position Position.SWORD [ActionCard.ADVANCE] [ActionCard.RETREAT] = Position.APART ∧
    Position.APART ≠ Position.SWORD := by
  decide

/-- C1 amended: the SwordRange row of `resolve_position`, with the last two
cases corrected: one side retreating sends the position to Apart even when
the other side advances, and the position stays at SwordRange only when
neither side plays a movement card. -/
theorem c1_sword_range_row (challenger_actions defender_actions : List ActionCard) :
    resolve_position Position.SWORD challenger_actions defender_actions =
      (if firstMovement challenger_actions = some ActionCard.ADVANCE ∧
          firstMovement defender_actions = some ActionCard.ADVANCE then Position.CLOSE
       else if (firstMovement challenger_actions = some ActionCard.ADVANCE ∧
                firstMovement defender_actions ≠ some ActionCard.ADVANCE ∧
                firstMovement defender_actions ≠ some ActionCard.RETREAT) ∨
               (firstMovement defender_actions = some ActionCard.ADVANCE ∧
                firstMovement challenger_actions ≠ some ActionCard.ADVANCE ∧
                firstMovement challenger_actions ≠ some ActionCard.RETREAT) then Position.CLOSE
       else if firstMovement challenger_actions = some ActionCard.RETREAT ∧
               firstMovement defender_actions = some ActionCard.RETREAT then Position.APART
       else if firstMovement challenger_actions = some ActionCard.RETREAT ∨
               firstMovement defender_actions = some ActionCard.RETREAT then Position.APART
       else Position.SWORD) := by
  unfold resolve_position
  generalize firstMovement challenger_actions = cm
  generalize firstMovement defender_actions = dm
  revert cm dm
  decide

/-! ## C8 — symmetry of `resolve_position`. -/

/-- C8: `resolve_position` is symmetric in the two players: swapping the
challenger and defender action lists never changes the resulting position. -/
theorem c8_resolve_position_symmetric (pos : Position)
    (challenger_actions defender_actions : List ActionCard) :
    resolve_position pos challenger_actions defender_actions =
      resolve_position pos defender_actions challenger_actions := by
  unfold resolve_position
  generalize firstMovement challenger_actions = cm
  generalize firstMovement defender_actions = dm
  revert pos cm dm
  decide

/-! ## C6 — the honor-violation predicate. -/

/-- C6: `check_honor_violation turn actions` is true exactly when the turn
number exceeds `HONOR_RESTRICTION_TURN` (= 3) and the actions contain
RETREAT; in particular it is true at turn 4 and false at turn 3 for a
decision containing RETREAT. -/
theorem c6_honor_violation_iff :
    ∀ (turn_number : Int) (actions : List ActionCard),
      check_honor_violation turn_number actions =
        (decide (turn_number > HONOR_RESTRICTION_TURN) &&
         decide (ActionCard.RETREAT ∈ actions)) ∧
      check_honor_violation 4 [ActionCard.RETREAT] = true ∧
      check_honor_violation 3 [ActionCard.RETREAT] = false := by
  intro turn_number actions
  refine ⟨?_, by decide, by decide⟩
  unfold check_honor_violation
  by_cases h : turn_number > HONOR_RESTRICTION_TURN
  · simp [h]
  · simp [h]

/-! ## C4 — end-to-end scenario. -/

/-- C4: from Apart, with the challenger playing [Advance, Attack] at
strength 2 and the defender playing nothing, `resolve_turn` yields position
SwordRange and damage 3 to the defender (2 strength + 1 advance + 0 close
bonus − 0 defense) and 0 to the challenger; `take_damage` then drops the
defender's health from 3 to 0, and `check_victory` returns CHALLENGER. -/
theorem c4_end_to_end_scenario :
    (resolve_turn 1 Position.APART sampleChallenger sampleDefender
        { actions := [ActionCard.ADVANCE, ActionCard.ATTACK], technique := none }
        { actions := [], technique := none }).2 = Position.SWORD ∧
    (resolve_turn 1 Position.APART sampleChallenger sampleDefender
        { actions := [ActionCard.ADVANCE, ActionCard.ATTACK], technique := none }
        { actions := [], technique := none }).1.damage_dealt =
      { challenger := 0, defender := 3 } ∧
    sampleDefender.health = 3 ∧
    (take_damage sampleDefender 3).health = 0 ∧
    check_victory sampleChallenger (take_damage sampleDefender 3)
        (some (resolve_turn 1 Position.APART sampleChallenger sampleDefender
          { actions := [ActionCard.ADVANCE, ActionCard.ATTACK], technique := none }
          { actions := [], technique := none }).1) = some "CHALLENGER" := by
  decide

/-! ## C2 — no damage when the final position is Apart. -/

/-- C2 counterexample: at Apart with the challenger playing [Attack] and the
defender nothing, `resolve_position` stays Apart, yet `resolve_combat` on
those same decisions returns 2 damage to the defender, not `{0,0}`: the
zero-damage guarantee lives in `resolve_turn`, which skips `resolve_combat`,
not in `resolve_combat` itself. -/
theorem c2_counterexample :
    resolve_position Position.APART [ActionCard.ATTACK] [] = Position.APART ∧
    resolve_combat sampleChallenger sampleDefender [ActionCard.ATTACK] [] Position.APART =
      { challenger := 0, defender := 2 } ∧
    ({ challenger := 0, defender := 2 } : Damage) ≠ { challenger := 0, defender := 0 } := by
  decide

/-- C2 amended: whenever `resolve_position` returns Apart for the two
decisions, `resolve_turn` reports zero damage to both sides, because it only
invokes `resolve_combat` when the post-move position is not Apart. -/
theorem c2_apart_no_damage (turn_number : Int) (position : Position)
    (challenger defender : PlayerState)
    (challenger_decision defender_decision : Decision)
    (h : resolve_position position challenger_decision.actions defender_decision.actions =
      Position.APART) :
    (resolve_turn turn_number position challenger defender
        challenger_decision defender_decision).1.damage_dealt =
      { challenger := 0, defender := 0 } := by
  simp [resolve_turn, h]

/-- Witness for `c2_apart_no_damage` at a concrete input. -/
theorem c2_apart_no_damage_witness :
    (resolve_turn 1 Position.APART sampleChallenger sampleDefender
        { actions := [ActionCard.ATTACK], technique := none }
        { actions := [], technique := none }).1.damage_dealt =
      { challenger := 0, defender := 0 } :=
  c2_apart_no_damage 1 Position.APART sampleChallenger sampleDefender
    { actions := [ActionCard.ATTACK], technique := none }
    { actions := [], technique := none } (by decide)

/-! ## C3 — `apply_action_effects` case analysis. -/

/-- The action loop never touches health. -/
theorem applyMoves_health (player : PlayerState) (b : Bool) (l : List ActionCard) :
    (applyMoves player b l).fst.health = player.health := by
  induction l generalizing player b with
  | nil => rfl
  | cons a t ih =>
    unfold applyMoves
    by_cases h1 : a = ActionCard.ADVANCE
    · simp [h1, ih, adjust_balance, adjust_momentum]
    · by_cases h2 : a = ActionCard.RETREAT
      · simp [h1, h2, ih, adjust_momentum]
      · simp [h1, h2, ih]

/-- The action loop is the identity on a list with no movement card. -/
theorem applyMoves_no_movement (player : PlayerState) (b : Bool) (l : List ActionCard)
    (ha : ActionCard.ADVANCE ∉ l) (hr : ActionCard.RETREAT ∉ l) :
    applyMoves player b l = (player, b) := by
  induction l generalizing player b with
  | nil => rfl
  | cons a t ih =>
    simp only [List.mem_cons, not_or] at ha hr
    have hA : ¬(a = ActionCard.ADVANCE) := fun hh => ha.1 hh.symm
    have hR : ¬(a = ActionCard.RETREAT) := fun hh => hr.1 hh.symm
    unfold applyMoves
    simp only [hA, hR, if_false]
    exact ih player b ha.2 hr.2

/-- On a list with exactly one ADVANCE and no RETREAT, the action loop
applies the advance effect once and sets the movement flag. -/
theorem applyMoves_single_advance (player : PlayerState) (b : Bool) (l : List ActionCard)
    (hcount : l.count ActionCard.ADVANCE = 1) (hr : ActionCard.RETREAT ∉ l) :
    applyMoves player b l =
      (adjust_balance (adjust_momentum player 1 MAX_MOMENTUM) (-1) MAX_BALANCE, true) := by
  induction l generalizing player b with
  | nil => simp at hcount
  | cons a t ih =>
    by_cases hA : a = ActionCard.ADVANCE
    · subst hA
      have ht : t.count ActionCard.ADVANCE = 0 := by
        simp [List.count_cons] at hcount
        omega
      have hAnot : ActionCard.ADVANCE ∉ t := by
        rwa [← List.count_eq_zero]
      have hRnot : ActionCard.RETREAT ∉ t := fun hh => hr (List.mem_cons_of_mem _ hh)
      unfold applyMoves
      simp [applyMoves_no_movement _ _ _ hAnot hRnot]
    · have hR : ¬(a = ActionCard.RETREAT) := by
        intro hh
        exact hr (by simp [hh])
      have hne : ¬(ActionCard.ADVANCE = a) := fun hh => hA hh.symm
      have hcount' : t.count ActionCard.ADVANCE = 1 := by
        simpa [List.count_cons, hne] using hcount
      have hRt : ActionCard.RETREAT ∉ t := fun hh => hr (List.mem_cons_of_mem _ hh)
      unfold applyMoves
      simp only [hA, hR, if_false]
      exact ih player b hcount' hRt

/-- On a list with exactly one RETREAT and no ADVANCE, the action loop
applies the retreat effect once and sets the movement flag. -/
theorem applyMoves_single_retreat (player : PlayerState) (b : Bool) (l : List ActionCard)
    (hcount : l.count ActionCard.RETREAT = 1) (ha : ActionCard.ADVANCE ∉ l) :
    applyMoves player b l = (adjust_momentum player (-1) MAX_MOMENTUM, true) := by
  induction l generalizing player b with
  | nil => simp at hcount
  | cons a t ih =>
    by_cases hR : a = ActionCard.RETREAT
    · subst hR
      have ht : t.count ActionCard.RETREAT = 0 := by
        simp [List.count_cons] at hcount
        omega
      have hRnot : ActionCard.RETREAT ∉ t := by
        rwa [← List.count_eq_zero]
      have hAnot : ActionCard.ADVANCE ∉ t := fun hh => ha (List.mem_cons_of_mem _ hh)
      have hA : ¬(ActionCard.RETREAT = ActionCard.ADVANCE) := by decide
      unfold applyMoves
      simp [hA, applyMoves_no_movement _ _ _ hAnot hRnot]
    · have hA : ¬(a = ActionCard.ADVANCE) := by
        intro hh
        exact ha (by simp [hh])
      have hne : ¬(ActionCard.RETREAT = a) := fun hh => hR hh.symm
      have hcount' : t.count ActionCard.RETREAT = 1 := by
        simpa [List.count_cons, hne] using hcount
      have hAt : ActionCard.ADVANCE ∉ t := fun hh => ha (List.mem_cons_of_mem _ hh)
      unfold applyMoves
      simp only [hA, hR, if_false]
      exact ih player b hcount' hAt

/-- `apply_action_effects` never touches health. -/
theorem apply_action_effects_health (player : PlayerState) (actions : List ActionCard) :
    (apply_action_effects player actions).health = player.health := by
  unfold apply_action_effects
  by_cases h : (applyMoves player false actions).snd = false ∧ actions ≠ []
  · simp [h, adjust_balance, applyMoves_health]
  · simp [h, applyMoves_health]

/-- C3 counterexample: on the malformed list [Advance, Retreat] both effects
apply in order (the loop visits every element), so starting from the default
state the momentum ends at 0, whereas the Advance-only effect the claim
predicts would leave it at 1. -/
theorem c3_counterexample :
    (apply_action_effects sampleChallenger [ActionCard.ADVANCE, ActionCard.RETREAT]).momentum = 0 ∧
    (adjust_balance (adjust_momentum sampleChallenger 1 MAX_MOMENTUM) (-1) MAX_BALANCE).momentum
      = 1 := by
  decide

/-- C3 amended: `apply_action_effects` applies movement effects once per
occurrence, in list order: health is never changed; an empty list changes
nothing; a non-empty list with no movement card gains 1 balance; a list with
exactly one Advance and no Retreat gets momentum +1 and balance −1; a list
with exactly one Retreat and no Advance gets momentum −1; and the malformed
list [Advance, Retreat] receives both effects in sequence, not only the
Advance effect. -/
theorem c3_action_effects_cases (player : PlayerState) (actions : List ActionCard) :
    (apply_action_effects player actions).health = player.health ∧
    (actions = [] → apply_action_effects player actions = player) ∧
    (actions ≠ [] → ActionCard.ADVANCE ∉ actions → ActionCard.RETREAT ∉ actions →
      apply_action_effects player actions = adjust_balance player 1 MAX_BALANCE) ∧
    (actions.count ActionCard.ADVANCE = 1 → ActionCard.RETREAT ∉ actions →
      apply_action_effects player actions =
        adjust_balance (adjust_momentum player 1 MAX_MOMENTUM) (-1) MAX_BALANCE) ∧
    (actions.count ActionCard.RETREAT = 1 → ActionCard.ADVANCE ∉ actions →
      apply_action_effects player actions = adjust_momentum player (-1) MAX_MOMENTUM) ∧
    (apply_action_effects player [ActionCard.ADVANCE, ActionCard.RETREAT] =
      adjust_momentum (adjust_balance (adjust_momentum player 1 MAX_MOMENTUM) (-1) MAX_BALANCE)
        (-1) MAX_MOMENTUM) := by
  refine ⟨apply_action_effects_health player actions, ?_, ?_, ?_, ?_, ?_⟩
  · intro h
    subst h
    rfl
  · intro hne ha hr
    unfold apply_action_effects
    simp [applyMoves_no_movement _ _ _ ha hr, hne]
  · intro hcount hr
    unfold apply_action_effects
    simp [applyMoves_single_advance _ _ _ hcount hr]
  · intro hcount ha
    unfold apply_action_effects
    simp [applyMoves_single_retreat _ _ _ hcount ha]
  · rfl

/-- Witness for `c3_action_effects_cases` at concrete inputs: a pure Attack
decision gains balance, a single Advance gains momentum and loses balance. -/
theorem c3_action_effects_cases_witness :
    apply_action_effects sampleChallenger [ActionCard.ATTACK] =
      adjust_balance sampleChallenger 1 MAX_BALANCE ∧
    apply_action_effects sampleChallenger [ActionCard.ADVANCE] =
      adjust_balance (adjust_momentum sampleChallenger 1 MAX_MOMENTUM) (-1) MAX_BALANCE :=
  ⟨(c3_action_effects_cases sampleChallenger [ActionCard.ATTACK]).2.2.1
      (by decide) (by decide) (by decide),
   (c3_action_effects_cases sampleChallenger [ActionCard.ADVANCE]).2.2.2.1
      (by decide) (by decide)⟩

/-! ## C5 — the 0..3 bounds invariant. -/

/-- The spec's resource-bounds invariant on a player state. -/
@[reducible]
def inBounds (player : PlayerState) : Prop :=
  0 ≤ player.health ∧ player.health ≤ DEFAULT_HEALTH ∧
  0 ≤ player.momentum ∧ player.momentum ≤ MAX_MOMENTUM ∧
  0 ≤ player.balance ∧ player.balance ≤ MAX_BALANCE

/-- `adjust_momentum` with the MAX_MOMENTUM cap preserves the bounds. -/
theorem adjust_momentum_inBounds (player : PlayerState) (amount : Int)
    (hp : inBounds player) : inBounds (adjust_momentum player amount MAX_MOMENTUM) := by
  obtain ⟨h1, h2, h3, h4, h5, h6⟩ := hp
  unfold adjust_momentum
  refine ⟨h1, h2, le_max_left 0 _, ?_, h5, h6⟩
  exact max_le (by norm_num [MAX_MOMENTUM]) (min_le_left _ _)

/-- `adjust_balance` with the MAX_BALANCE cap preserves the bounds. -/
theorem adjust_balance_inBounds (player : PlayerState) (amount : Int)
    (hp : inBounds player) : inBounds (adjust_balance player amount MAX_BALANCE) := by
  obtain ⟨h1, h2, h3, h4, h5, h6⟩ := hp
  unfold adjust_balance
  refine ⟨h1, h2, h3, h4, le_max_left 0 _, ?_⟩
  exact max_le (by norm_num [MAX_BALANCE]) (min_le_left _ _)

/-- `take_damage` with a non-negative amount preserves the bounds. -/
theorem take_damage_inBounds (player : PlayerState) (amount : Int)
    (hp : inBounds player) (ha : 0 ≤ amount) : inBounds (take_damage player amount) := by
  obtain ⟨h1, h2, h3, h4, h5, h6⟩ := hp
  unfold take_damage
  refine ⟨le_max_left 0 _, ?_, h3, h4, h5, h6⟩
  exact max_le (by norm_num [DEFAULT_HEALTH]) (by omega)

/-- The action loop preserves the bounds. -/
theorem applyMoves_inBounds (player : PlayerState) (b : Bool) (l : List ActionCard)
    (hp : inBounds player) : inBounds (applyMoves player b l).fst := by
  induction l generalizing player b with
  | nil => exact hp
  | cons a t ih =>
    unfold applyMoves
    by_cases h1 : a = ActionCard.ADVANCE
    · simp only [h1, if_true]
      exact ih _ _ (adjust_balance_inBounds _ _ (adjust_momentum_inBounds _ _ hp))
    · by_cases h2 : a = ActionCard.RETREAT
      · simp only [h1, h2, if_false, if_true]
        exact ih _ _ (adjust_momentum_inBounds _ _ hp)
      · simp only [h1, h2, if_false]
        exact ih _ _ hp

/-- `apply_action_effects` preserves the bounds. -/
theorem apply_action_effects_inBounds (player : PlayerState) (actions : List ActionCard)
    (hp : inBounds player) : inBounds (apply_action_effects player actions) := by
  unfold apply_action_effects
  by_cases h : (applyMoves player false actions).snd = false ∧ actions ≠ []
  · rw [if_pos h]
    exact adjust_balance_inBounds _ _ (applyMoves_inBounds _ _ _ hp)
  · rw [if_neg h]
    exact applyMoves_inBounds _ _ _ hp

/-- C5: starting from in-bounds player states, every resource-manager
operation — momentum and balance adjustment with any delta, damage with any
non-negative amount, action effects for any action list, and the combined
per-turn update with non-negative damage — keeps health, momentum and
balance within 0..3; hence the bounds hold after any sequence of these
operations. -/
theorem c5_bounds_invariant (p q : PlayerState) (amount dmg : Int)
    (actions challenger_actions defender_actions : List ActionCard) (dd : Damage)
    (hp : inBounds p) (hq : inBounds q) (hdmg : 0 ≤ dmg)
    (hdc : 0 ≤ dd.challenger) (hdd : 0 ≤ dd.defender) :
    inBounds (adjust_momentum p amount MAX_MOMENTUM) ∧
    inBounds (adjust_balance p amount MAX_BALANCE) ∧
    inBounds (take_damage p dmg) ∧
    inBounds (apply_action_effects p actions) ∧
    inBounds (update_both_players p q challenger_actions defender_actions dd).fst ∧
    inBounds (update_both_players p q challenger_actions defender_actions dd).snd := by
  refine ⟨adjust_momentum_inBounds p amount hp, adjust_balance_inBounds p amount hp,
    take_damage_inBounds p dmg hp hdmg, apply_action_effects_inBounds p actions hp, ?_, ?_⟩
  · exact apply_action_effects_inBounds _ _ (take_damage_inBounds p dd.challenger hp hdc)
  · exact apply_action_effects_inBounds _ _ (take_damage_inBounds q dd.defender hq hdd)

/-- Witness for `c5_bounds_invariant` at concrete inputs. -/
theorem c5_bounds_invariant_witness :
    inBounds (adjust_momentum sampleChallenger 5 MAX_MOMENTUM) ∧
    inBounds (adjust_balance sampleChallenger 5 MAX_BALANCE) ∧
    inBounds (take_damage sampleChallenger 2) ∧
    inBounds (apply_action_effects sampleChallenger [ActionCard.ADVANCE]) ∧
    inBounds (update_both_players sampleChallenger sampleDefender
      [ActionCard.ADVANCE] [ActionCard.RETREAT] { challenger := 1, defender := 2 }).fst ∧
    inBounds (update_both_players sampleChallenger sampleDefender
      [ActionCard.ADVANCE] [ActionCard.RETREAT] { challenger := 1, defender := 2 }).snd :=
  c5_bounds_invariant sampleChallenger sampleDefender 5 2
    [ActionCard.ADVANCE] [ActionCard.ADVANCE] [ActionCard.RETREAT]
    { challenger := 1, defender := 2 }
    (by decide) (by decide) (by decide) (by decide) (by decide)

/-! ## C7 — double honor violation: the defender's marker overwrites. -/

/-- C7: when both sides violate the honor rule in the same turn (turn number
above 3 and both action lists contain RETREAT), the turn result carries the
single marker "Defender" (the challenger's marker is overwritten), and with
both players still above 0 health, `check_victory` on that result returns
CHALLENGER: only one side is penalized. -/
theorem c7_double_violation_overwrite (turn_number : Int) (position : Position)
    (challenger defender : PlayerState)
    (challenger_decision defender_decision : Decision)
    (ht : turn_number > HONOR_RESTRICTION_TURN)
    (_hc : ActionCard.RETREAT ∈ challenger_decision.actions)
    (hd : ActionCard.RETREAT ∈ defender_decision.actions)
    (hch : 0 < challenger.health) (hdh : 0 < defender.health) :
    (resolve_turn turn_number position challenger defender
        challenger_decision defender_decision).fst.honor_violation = some "Defender" ∧
    check_victory challenger defender
        (some (resolve_turn turn_number position challenger defender
          challenger_decision defender_decision).fst) = some "CHALLENGER" := by
  have hcvd : check_honor_violation turn_number defender_decision.actions = true := by
    simp [check_honor_violation, ht, hd]
  have h1 : ¬ challenger.health ≤ 0 := not_le.mpr hch
  have h2 : ¬ defender.health ≤ 0 := not_le.mpr hdh
  constructor
  · simp [resolve_turn, hcvd]
  · simp [check_victory, resolve_turn, hcvd, h1, h2]

/-- Witness for `c7_double_violation_overwrite` at a concrete input. -/
theorem c7_double_violation_overwrite_witness :
    (resolve_turn 4 Position.SWORD sampleChallenger sampleDefender
        { actions := [ActionCard.RETREAT], technique := none }
        { actions := [ActionCard.RETREAT], technique := none }).fst.honor_violation =
      some "Defender" ∧
    check_victory sampleChallenger sampleDefender
        (some (resolve_turn 4 Position.SWORD sampleChallenger sampleDefender
          { actions := [ActionCard.RETREAT], technique := none }
          { actions := [ActionCard.RETREAT], technique := none }).fst) = some "CHALLENGER" :=
  c7_double_violation_overwrite 4 Position.SWORD sampleChallenger sampleDefender
    { actions := [ActionCard.RETREAT], technique := none }
    { actions := [ActionCard.RETREAT], technique := none }
    (by decide) (by decide) (by decide) (by decide) (by decide)

/-! ## C9 — purity of `resolve_turn`. -/

/-- The full observable outcome of a turn resolution, with the player states
as `resolve_turn` leaves them.  The source body of `resolve_turn` only reads
the player objects (through `resolve_combat`) and never assigns to any of
their fields, so the state-threading embedding passes both states through
every step unchanged. -/
structure TurnOutcome where
  result : TurnResult
  new_position : Position
  challenger_out : PlayerState
  defender_out : PlayerState
deriving DecidableEq, Repr

/-- State-threading version of `resolve_turn`: identical statement sequence,
also returning the player states as the body leaves them. -/
def resolve_turnS (turn_number : Int) (position : Position)
    (challenger defender : PlayerState)
    (challenger_decision defender_decision : Decision) : TurnOutcome :=
  let challenger_actions := challenger_decision.actions
  let defender_actions := defender_decision.actions
  let new_position := resolve_position position challenger_actions defender_actions
  let damage :=
    if new_position ≠ Position.APART then
      resolve_combat challenger defender challenger_actions defender_actions new_position
    else ⟨0, 0⟩
  let hv1 : Option String :=
    if check_honor_violation turn_number challenger_actions then some "Challenger" else none
  let hv2 : Option String :=
    if check_honor_violation turn_number defender_actions then some "Defender" else hv1
  { result :=
      { turn := turn_number
        challenger_actions := challenger_actions
        defender_actions := defender_actions
        challenger_technique := challenger_decision.technique
        defender_technique := defender_decision.technique
        position_before := position.value
        position_after := new_position.value
        damage_dealt := damage
        honor_violation := hv2 }
    new_position := new_position
    challenger_out := challenger
    defender_out := defender }

/-- C9: `resolve_turn` is pure: threading the player states through every
statement of its body returns them unchanged, and its entire effect is the
returned (TurnResult, newPosition) pair, which is a function of the inputs
alone. -/
theorem c9_resolve_turn_pure (turn_number : Int) (position : Position)
    (challenger defender : PlayerState)
    (challenger_decision defender_decision : Decision) :
    (resolve_turnS turn_number position challenger defender
        challenger_decision defender_decision).challenger_out = challenger ∧
    (resolve_turnS turn_number position challenger defender
        challenger_decision defender_decision).defender_out = defender ∧
    ((resolve_turnS turn_number position challenger defender
        challenger_decision defender_decision).result,
     (resolve_turnS turn_number position challenger defender
        challenger_decision defender_decision).new_position) =
      resolve_turn turn_number position challenger defender
        challenger_decision defender_decision :=
  ⟨rfl, rfl, rfl⟩

/-! ## C10 — the engine never heals. -/

/-- C10: for in-range (non-negative health) player states and non-negative
damage values, `update_both_players` never increases either player's health
(and leaves it non-negative, so the property propagates over any sequence of
turns): `take_damage` only decreases health and `apply_action_effects`
never touches it. -/
theorem c10_health_nonincreasing (challenger defender : PlayerState)
    (challenger_actions defender_actions : List ActionCard) (dd : Damage)
    (hdc : 0 ≤ dd.challenger) (hdd : 0 ≤ dd.defender)
    (hc : 0 ≤ challenger.health) (hd : 0 ≤ defender.health) :
    (update_both_players challenger defender challenger_actions defender_actions dd).fst.health ≤
      challenger.health ∧
    (update_both_players challenger defender challenger_actions defender_actions dd).snd.health ≤
      defender.health ∧
    0 ≤ (update_both_players challenger defender
          challenger_actions defender_actions dd).fst.health ∧
    0 ≤ (update_both_players challenger defender
          challenger_actions defender_actions dd).snd.health := by
  unfold update_both_players
  simp only [apply_action_effects_health, take_damage]
  refine ⟨max_le hc (by omega), max_le hd (by omega), le_max_left 0 _, le_max_left 0 _⟩

/-- Witness for `c10_health_nonincreasing` at a concrete input. -/
theorem c10_health_nonincreasing_witness :
    (update_both_players sampleChallenger sampleDefender
        [ActionCard.ADVANCE] [] { challenger := 0, defender := 2 }).fst.health ≤
      sampleChallenger.health ∧
    (update_both_players sampleChallenger sampleDefender
        [ActionCard.ADVANCE] [] { challenger := 0, defender := 2 }).snd.health ≤
      sampleDefender.health ∧
    0 ≤ (update_both_players sampleChallenger sampleDefender
          [ActionCard.ADVANCE] [] { challenger := 0, defender := 2 }).fst.health ∧
    0 ≤ (update_both_players sampleChallenger sampleDefender
          [ActionCard.ADVANCE] [] { challenger := 0, defender := 2 }).snd.health :=
  c10_health_nonincreasing sampleChallenger sampleDefender
    [ActionCard.ADVANCE] [] { challenger := 0, defender := 2 }
    (by decide) (by decide) (by decide) (by decide)

end Bushido
